import Mathlib

/-!
Verification of the IcarusCore-Sentinel ingestion pipeline.

This file shallowly embeds the deduplicating multi-source ingestion and
merge pipeline of `src/utils/data_processor.py` (class `DataProcessor`),
the tools risk-level computation of the `/tools` route in `app.py`, and
the seed records of `initialize_data.py`.

Modelling conventions:
* A persisted JSON file holding a list of records is modelled as a Lean
  list; `_load_json_file` / `_save_json_file` become the input and output
  of each processing function (the functions below map the prior persisted
  collection to the new persisted collection).
* Python dicts produced by normalization have a fixed key set per source;
  they are modelled as a `Threat` structure holding every field the
  pipeline ever consults (`id`, `source`, `date`, `tags`) together with
  the display fields the claims mention (`name`, `description`, `tactic`,
  `severity`, `link`, `author`, `mitigation`, `detection`).  Source
  specific pass-through extras (`platforms`, `ip_address`, `port`, ...)
  are never consulted by the merge/dedup/retention logic nor by any claim
  and are omitted.
* Raw-record fields read with `.get(key, default)` are modelled as plain
  values when the claims never depend on the key being absent, and as
  `Option` values (with the code's default applied by `getD`) for the
  `severity` / `threat_level` fields whose defaulting the claims are
  about.
-/

/-- Canonical threat record shape produced by the per-source normalization
in `DataProcessor.process_*_data`. -/
structure Threat where
  id : String
  name : String
  description : String
  tactic : String
  severity : String
  source : String
  date : String
  link : String
  tags : List String
  author : String
  mitigation : String
  detection : String
deriving DecidableEq, Repr

/-- Raw MITRE technique record as consumed by `process_mitre_data`
(`mitre_data['techniques']` elements, `data_processor.py` lines 21-35). -/
structure MitreTechnique where
  id : String
  name : String
  description : String
  tactics : List String
  platforms : List String
  data_sources : List String
  detection : String
  date : String
deriving DecidableEq, Repr

/-- Raw CISA alert record as consumed by `process_cisa_data`
(`data_processor.py` lines 59-72).  `severity` is `Option`al to model a
record lacking the key (the code reads `alert.get('severity', 'Medium')`). -/
structure CisaAlert where
  id : String
  title : String
  description : String
  severity : Option String
  date : String
  link : String
  tags : List String
deriving DecidableEq, Repr

/-- Raw RSS article record as consumed by `process_rss_data`
(`data_processor.py` lines 92-106).  `threat_level` is `Option`al to model
a record lacking the key (the code reads `article.get('threat_level', 'Low')`). -/
structure RssArticle where
  id : String
  title : String
  description : String
  threat_level : Option String
  source : String
  date : String
  link : String
  author : String
  tags : List String
deriving DecidableEq, Repr

/-- Raw OTX pulse record as consumed by `process_otx_data`
(`data_processor.py` lines 131-147). -/
structure OtxPulse where
  id : String
  name : String
  description : String
  threat_level : Option String
  date : String
  author : String
  tags : List String
  indicators_count : Nat
deriving DecidableEq, Repr

/-- Raw Shodan vulnerability record as consumed by `process_shodan_data`
(`data_processor.py` lines 166-185). -/
structure ShodanVuln where
  id : String
  name : String
  description : String
  severity : Option String
  date : String
  ip_address : String
  port : Nat
  service : String
  country : String
  organization : String
  tags : List String
  vulnerabilities : List String
deriving DecidableEq, Repr

/-- `DataProcessor._generate_mitigation_advice` (`data_processor.py`
lines 264-282). -/
def generate_mitigation_advice (technique : MitreTechnique) : String :=
  let tactics := technique.tactics
  let advice : List String :=
    (if tactics.contains "initial-access" then
      ["Implement email security and user training."] else []) ++
    (if tactics.contains "execution" then
      ["Use application control and endpoint protection."] else []) ++
    (if tactics.contains "persistence" then
      ["Monitor system changes and user accounts."] else []) ++
    (if tactics.contains "credential-access" then
      ["Implement multi-factor authentication."] else []) ++
    (if tactics.contains "lateral-movement" then
      ["Segment networks and monitor lateral traffic."] else []) ++
    (if tactics.contains "exfiltration" then
      ["Monitor data flows and implement DLP."] else [])
  if advice.isEmpty then
    "Follow security best practices and monitor for suspicious activity."
  else
    String.intercalate " " advice

/-- `DataProcessor._generate_shodan_mitigation` (`data_processor.py`
lines 284-324). -/
def generate_shodan_mitigation (vuln : ShodanVuln) : String :=
  let service := vuln.service.toLower
  let port := vuln.port
  let service_mitigations : List String :=
    if service.containsSubstr "ssh" || port == 22 then
      ["Implement key-based authentication and disable password authentication.",
       "Change default SSH port and use fail2ban."]
    else if service.containsSubstr "http" || port == 80 || port == 443 then
      ["Keep web server software updated and use a Web Application Firewall.",
       "Implement proper access controls and remove default pages."]
    else if service.containsSubstr "ftp" || port == 21 then
      ["Use SFTP instead of FTP for secure file transfers.",
       "Implement strong authentication and access controls."]
    else if service.containsSubstr "telnet" || port == 23 then
      ["Replace Telnet with SSH for secure remote access.",
       "If Telnet is required, use it only on internal networks."]
    else if service.containsSubstr "mysql" || port == 3306 then
      ["Restrict database access to authorized hosts only.",
       "Use strong passwords and enable SSL connections."]
    else if service.containsSubstr "mongodb" || port == 27017 then
      ["Enable authentication and use access controls.",
       "Bind to localhost only unless external access is required."]
    else if service.containsSubstr "rdp" || port == 3389 then
      ["Enable Network Level Authentication and use strong passwords.",
       "Limit RDP access through firewall rules."]
    else
      ["Review service configuration and implement access controls.",
       "Keep software updated and monitor for unauthorized access."]
  let general_mitigations : List String :=
    ["Use firewall rules to restrict access to necessary ports only.",
     "Implement network segmentation and monitoring."]
  let vuln_mitigations : List String :=
    if vuln.vulnerabilities.isEmpty then []
    else ["Apply security patches for identified vulnerabilities immediately."]
  String.intercalate " " (service_mitigations ++ general_mitigations ++ vuln_mitigations)

/-- `DataProcessor._generate_shodan_detection` (`data_processor.py`
lines 326-355). -/
def generate_shodan_detection (vuln : ShodanVuln) : String :=
  let service := vuln.service.toLower
  let port := vuln.port
  let service_detections : List String :=
    if service.containsSubstr "ssh" || port == 22 then
      ["Monitor SSH login attempts and failed authentication logs."]
    else if service.containsSubstr "http" || port == 80 || port == 443 then
      ["Monitor web server access logs for suspicious requests.",
       "Implement web application monitoring and anomaly detection."]
    else if service.containsSubstr "database" || port == 3306 || port == 5432 || port == 27017 then
      ["Monitor database connection logs and query patterns.",
       "Set up alerts for unauthorized database access attempts."]
    else if service.containsSubstr "ftp" || port == 21 then
      ["Monitor FTP access logs and file transfer activities."]
    else
      ["Monitor service logs for unusual connection patterns."]
  let general_detections : List String :=
    ["Use network monitoring tools to detect unusual traffic patterns.",
     "Implement intrusion detection systems to identify reconnaissance activities.",
     "Monitor for connections from unexpected geographic locations."]
  let vuln_detections : List String :=
    if vuln.vulnerabilities.isEmpty then []
    else ["Deploy vulnerability scanners to detect exploitation attempts."]
  String.intercalate " " (service_detections ++ general_detections ++ vuln_detections)

/-- Normalization of one MITRE technique to the threat shape
(`data_processor.py` lines 22-35). -/
def mitreThreat (technique : MitreTechnique) : Threat where
  id := technique.id
  name := technique.name
  description := technique.description
  tactic := String.intercalate ", " technique.tactics
  severity := "Medium"
  source := "MITRE ATT&CK"
  date := technique.date
  link := ""
  tags := ["mitre", "technique"] ++ technique.tactics
  author := ""
  mitigation := generate_mitigation_advice technique
  detection := technique.detection

/-- Normalization of one CISA alert to the threat shape
(`data_processor.py` lines 60-72). -/
def cisaThreat (alert : CisaAlert) : Threat where
  id := alert.id
  name := alert.title
  description := alert.description
  tactic := "Alert"
  severity := alert.severity.getD "Medium"
  source := "CISA"
  date := alert.date
  link := alert.link
  tags := alert.tags ++ ["cisa", "alert"]
  author := ""
  mitigation := "Follow CISA recommendations in the full alert."
  detection := "Monitor for indicators mentioned in the alert."

/-- Normalization of one RSS article to the threat shape
(`data_processor.py` lines 93-106).  Note the record's `source` field is
copied from the article, not a fixed literal. -/
def rssThreat (article : RssArticle) : Threat where
  id := article.id
  name := article.title
  description := article.description
  tactic := "News/Intel"
  severity := article.threat_level.getD "Low"
  source := article.source
  date := article.date
  link := article.link
  tags := article.tags ++ ["news"]
  author := article.author
  mitigation := "Stay informed and follow security best practices."
  detection := "Monitor for related indicators and patterns."

/-- Normalization of one OTX pulse to the threat shape
(`data_processor.py` lines 132-147). -/
def otxThreat (pulse : OtxPulse) : Threat where
  id := "otx-" ++ pulse.id
  name := pulse.name
  description := pulse.description
  tactic := "Intelligence"
  severity := pulse.threat_level.getD "Medium"
  source := "AlienVault OTX"
  date := pulse.date
  link := ""
  tags := pulse.tags ++ ["otx", "pulse"]
  author := pulse.author
  mitigation := "Review indicators and implement appropriate controls."
  detection := "Monitor for " ++ toString pulse.indicators_count ++ " associated indicators."

/-- Normalization of one Shodan vulnerability to the threat shape
(`data_processor.py` lines 167-185). -/
def shodanThreat (vuln : ShodanVuln) : Threat where
  id := vuln.id
  name := vuln.name
  description := vuln.description
  tactic := "Discovery"
  severity := vuln.severity.getD "Medium"
  source := "Shodan"
  date := vuln.date
  link := if vuln.ip_address ≠ "" then "https://www.shodan.io/host/" ++ vuln.ip_address else ""
  tags := vuln.tags ++ ["shodan", "network-intelligence"]
  author := ""
  mitigation := generate_shodan_mitigation vuln
  detection := generate_shodan_detection vuln

/-- Shared shape of the per-source merge loops in `data_processor.py`:
iterate over the batch, appending each normalized candidate to the (live)
collection unless the admission test rejects it against the collection as
accumulated so far.  Each `process_*_data` loop instantiates `admits` with
its literal `if` condition. -/
def mergeInto (admits : List Threat → α → Bool) (norm : α → Threat)
    (batch : List α) (threats : List Threat) : List Threat :=
  batch.foldl (fun acc x => if admits acc x then acc ++ [norm x] else acc) threats

/-- Fixed allow-list consulted by the RSS admission test
(`data_processor.py` line 110). -/
def relevant_security_tags : List String :=
  ["malware", "ransomware", "vulnerability", "apt", "phishing"]

/-- Retention sort used by `process_rss_data` (line 115) and
`process_shodan_data` (line 193): Python's stable
`sort(key=lambda x: x.get('date', ''), reverse=True)`, a descending
lexicographic string sort on the `date` field. -/
def sort_by_date_desc (threats : List Threat) : List Threat :=
  threats.mergeSort (fun a b => decide (b.date ≤ a.date))

/-- `DataProcessor.process_mitre_data` restricted to the threats file
(`data_processor.py` lines 12-43): dedup on `id` + `source == 'MITRE ATT&CK'`
(lines 38-40), no sort, no truncation.  The actors side effect is modelled
separately by `process_mitre_actors`. -/
def process_mitre_data (techniques : List MitreTechnique)
    (existing_threats : List Threat) : List Threat :=
  mergeInto
    (fun acc technique =>
      ! acc.any (fun t => t.id == (mitreThreat technique).id && t.source == "MITRE ATT&CK"))
    mitreThreat techniques existing_threats

/-- `DataProcessor.process_cisa_data` (`data_processor.py` lines 53-84):
dedup on `id` + `source == 'CISA'` (lines 75-77), no sort, no truncation. -/
def process_cisa_data (cisa_data : List CisaAlert)
    (existing_threats : List Threat) : List Threat :=
  mergeInto
    (fun acc alert =>
      ! acc.any (fun t => t.id == (cisaThreat alert).id && t.source == "CISA"))
    cisaThreat cisa_data existing_threats

/-- `DataProcessor.process_rss_data` (`data_processor.py` lines 86-123):
admission requires both that no existing record share the candidate's `id`
(`source` is NOT consulted, line 109) and that the raw article's tags meet
the allow-list (lines 110-111); then the whole collection is sorted
descending by date string and truncated to 1000 (lines 115-116). -/
def process_rss_data (rss_data : List RssArticle)
    (existing_threats : List Threat) : List Threat :=
  (sort_by_date_desc
    (mergeInto
      (fun acc article =>
        (! acc.any (fun t => t.id == (rssThreat article).id)) &&
        article.tags.any (fun tag => relevant_security_tags.contains tag))
      rssThreat rss_data existing_threats)).take 1000

/-- `DataProcessor.process_otx_data` (`data_processor.py` lines 125-158):
dedup on `id` alone (`source` is NOT consulted, line 150), no sort, no
truncation. -/
def process_otx_data (otx_data : List OtxPulse)
    (existing_threats : List Threat) : List Threat :=
  mergeInto
    (fun acc pulse => ! acc.any (fun t => t.id == (otxThreat pulse).id))
    otxThreat otx_data existing_threats

/-- `DataProcessor.process_shodan_data` (`data_processor.py` lines 160-201):
dedup on `id` + `source == 'Shodan'` (lines 188-190), then sort descending
by date string and truncate to 2000 (lines 193-194). -/
def process_shodan_data (shodan_data : List ShodanVuln)
    (existing_threats : List Threat) : List Threat :=
  (sort_by_date_desc
    (mergeInto
      (fun acc vuln =>
        ! acc.any (fun t => t.id == (shodanThreat vuln).id && t.source == "Shodan"))
      shodanThreat shodan_data existing_threats)).take 2000

/-- Threat-actor record shape used by `_process_mitre_actors` and the
`/actors` route. -/
structure Actor where
  id : String
  name : String
  description : String
  country : String
  targets : List String
  techniques : List String
  active_since : String
  source : String
deriving DecidableEq, Repr

/-- Fixed catalog of well-known actors merged by `_process_mitre_actors`
(`data_processor.py` lines 210-251). -/
def known_actors : List Actor :=
  [{ id := "apt1", name := "APT1",
     description := "Chinese cyber espionage group, also known as Comment Crew",
     country := "China",
     targets := ["Government", "Military", "Private Companies"],
     techniques := ["Spear Phishing", "Remote Access Tools", "Data Exfiltration"],
     active_since := "2006", source := "MITRE ATT&CK" },
   { id := "apt28", name := "APT28",
     description := "Russian military intelligence cyber unit, also known as Fancy Bear",
     country := "Russia",
     targets := ["Government", "Military", "Media"],
     techniques := ["Zero-day Exploits", "Spear Phishing", "Credential Harvesting"],
     active_since := "2007", source := "MITRE ATT&CK" },
   { id := "apt29", name := "APT29",
     description := "Russian intelligence service, also known as Cozy Bear",
     country := "Russia",
     targets := ["Government", "Healthcare", "Technology"],
     techniques := ["Supply Chain Attacks", "Living off the Land", "Steganography"],
     active_since := "2008", source := "MITRE ATT&CK" },
   { id := "lazarus", name := "Lazarus Group",
     description := "North Korean state-sponsored group behind major cyber attacks",
     country := "North Korea",
     targets := ["Financial", "Cryptocurrency", "Entertainment"],
     techniques := ["Destructive Malware", "Financial Theft", "Ransomware"],
     active_since := "2009", source := "MITRE ATT&CK" }]

/-- `DataProcessor._process_mitre_actors` (`data_processor.py` lines
203-262): append each catalog actor whose `id` is not already present
(`id`-only dedup, lines 254-256); no retention cap. -/
def process_mitre_actors (existing_actors : List Actor) : List Actor :=
  known_actors.foldl
    (fun acc actor => if acc.any (fun a => a.id == actor.id) then acc else acc ++ [actor])
    existing_actors

/-- Security-tool record shape shared by `update_tools_data`,
`initialize_data.py` and the `/tools` route.  `risk_level` is `Option`al:
the records written by `update_tools_data` lack the key, those written by
`initialize_data.py` carry it. -/
structure Tool where
  id : String
  name : String
  description : String
  category : String
  platforms : List String
  used_by : List String
  techniques : List String
  detection : String
  mitigation : String
  is_legitimate : Bool
  availability : String
  risk_level : Option String
deriving DecidableEq, Repr

/-- Fixed tool catalog written by `DataProcessor.update_tools_data`
(`data_processor.py` lines 380-420); none of these records carries a
`risk_level` key. -/
def update_tools_catalog : List Tool :=
  [{ id := "powershell", name := "PowerShell",
     description := "Command-line shell and scripting language often abused by attackers",
     category := "Dual-use Tool", platforms := ["Windows"],
     used_by := ["APT28", "APT29", "FIN7"], techniques := ["T1059.001"],
     detection := "Monitor PowerShell execution and command-line arguments",
     mitigation := "Enable PowerShell logging and restrict execution policies",
     is_legitimate := true, availability := "Built-in", risk_level := none },
   { id := "mimikatz", name := "Mimikatz",
     description := "Tool for extracting passwords and authentication tokens from Windows",
     category := "Credential Access", platforms := ["Windows"],
     used_by := ["Multiple APT groups"], techniques := ["T1003.001", "T1558"],
     detection := "Monitor for LSASS access and credential dumping activities",
     mitigation := "Implement credential guard and limit admin privileges",
     is_legitimate := true, availability := "Free", risk_level := none },
   { id := "cobalt-strike", name := "Cobalt Strike",
     description := "Commercial penetration testing tool frequently used in attacks",
     category := "Command and Control", platforms := ["Windows", "Linux", "macOS"],
     used_by := ["Ransomware groups", "APT groups"], techniques := ["T1071", "T1055"],
     detection := "Monitor for beacon communications and process injection",
     mitigation := "Block known C2 domains and monitor network traffic",
     is_legitimate := true, availability := "Commercial", risk_level := none }]

/-- `DataProcessor.update_tools_data` (`data_processor.py` lines 377-426):
unconditionally rewrites the tools file with the fixed catalog; the prior
persisted tools collection is not read at all. -/
def update_tools_data (_prior_tools : List Tool) : List Tool :=
  update_tools_catalog

/-- Per-record risk-level computation of the `/tools` route (`app.py`
lines 209-219): a stored `risk_level` is reported unchanged; only when the
key is absent is it derived from `len(used_by)` thresholds. -/
def tools_route_risk (tool : Tool) : String :=
  match tool.risk_level with
  | some r => r
  | none =>
    if tool.used_by.length > 5 then "High"
    else if tool.used_by.length > 2 then "Medium"
    else "Low"

/-- `SecurityTool.get_risk_level` (`src/models/threat_data.py` lines
252-261). -/
def securityTool_get_risk_level (tool : Tool) : String :=
  if !tool.is_legitimate && tool.used_by.length > 5 then "High"
  else if tool.is_legitimate && tool.used_by.length > 10 then "Medium"
  else if tool.used_by.length > 2 then "Medium"
  else "Low"

/-- The `mimikatz` seed record written by `initialize_data.py` (lines
123-136); note the stored `risk_level` of `Critical` alongside a single
`used_by` entry. -/
def init_tool_mimikatz : Tool where
  id := "mimikatz"
  name := "Mimikatz"
  description := "Tool for extracting passwords and authentication tokens from Windows"
  category := "Credential Access"
  platforms := ["Windows"]
  used_by := ["Multiple APT groups"]
  techniques := ["T1003.001", "T1558"]
  detection := "Monitor for LSASS access and credential dumping activities"
  mitigation := "Implement credential guard and limit admin privileges"
  is_legitimate := true
  availability := "Free"
  risk_level := some "Critical"

/-- The `nmap` seed record written by `initialize_data.py` (lines 151-164). -/
def init_tool_nmap : Tool where
  id := "nmap"
  name := "Nmap"
  description := "Network discovery and security auditing tool"
  category := "Network"
  platforms := ["Windows", "Linux", "macOS"]
  used_by := ["Security professionals", "Threat actors"]
  techniques := ["T1046"]
  detection := "Monitor for network scanning activities"
  mitigation := "Implement network monitoring and intrusion detection"
  is_legitimate := true
  availability := "Free"
  risk_level := some "Medium"

/-- Outcome-level model of the `try/except Exception` wrapper enclosing
the whole body of each `process_*_data` function (`data_processor.py`,
e.g. lines 14-51): the body either computes and saves the new collection
(`Except.ok`) or raises before the save (`Except.error`), in which case
the exception is caught, nothing is saved, and the function returns
normally with the persisted file unchanged. -/
def try_step (body : List Threat → Except String (List Threat))
    (threats : List Threat) : List Threat :=
  match body threats with
  | Except.ok updated => updated
  | Except.error _ => threats

/-- Sequencing of per-source processing steps as in `update_threat_data`
(`app.py` lines 38-78): each source's processor is invoked in turn on the
persisted collection, each wrapped in its own internal `try/except`. -/
def run_update (steps : List (List Threat → Except String (List Threat)))
    (threats : List Threat) : List Threat :=
  steps.foldl (fun s f => try_step f s) threats

/-- `update_threat_data` (`app.py` lines 38-78) at the level of the
threats file: the MITRE, CISA, RSS, OTX and Shodan processing bodies are
run in this order, each behind its own `try/except`. -/
def update_threat_data
    (mitre cisa rss otx shodan : List Threat → Except String (List Threat))
    (threats : List Threat) : List Threat :=
  run_update [mitre, cisa, rss, otx, shodan] threats

/-- Dedup test of `process_mitre_data` (`data_processor.py` line 38): the
existing record `t` blocks the candidate iff it matches on `id` and has
source `MITRE ATT&CK`. -/
def mitre_hit (technique : MitreTechnique) (t : Threat) : Bool :=
  t.id == (mitreThreat technique).id && t.source == "MITRE ATT&CK"

/-- Dedup test of `process_cisa_data` (`data_processor.py` line 75). -/
def cisa_hit (alert : CisaAlert) (t : Threat) : Bool :=
  t.id == (cisaThreat alert).id && t.source == "CISA"

/-- Dedup test of `process_rss_data` (`data_processor.py` line 109):
matches on `id` alone, `source` is not consulted. -/
def rss_hit (article : RssArticle) (t : Threat) : Bool :=
  t.id == (rssThreat article).id

/-- Tag admission test of `process_rss_data` (`data_processor.py` lines
110-111), evaluated on the raw article's tags. -/
def rss_extra (article : RssArticle) : Bool :=
  article.tags.any (fun tag => relevant_security_tags.contains tag)

/-- Dedup test of `process_otx_data` (`data_processor.py` line 150):
matches on `id` alone, `source` is not consulted. -/
def otx_hit (pulse : OtxPulse) (t : Threat) : Bool :=
  t.id == (otxThreat pulse).id

/-- Dedup test of `process_shodan_data` (`data_processor.py` line 188). -/
def shodan_hit (vuln : ShodanVuln) (t : Threat) : Bool :=
  t.id == (shodanThreat vuln).id && t.source == "Shodan"

/-- Constant-true admission side condition, for the sources that admits
every non-duplicate candidate. -/
def no_filter {α : Type} (_ : α) : Bool := true

/-- Characterization of an admission test as "no existing record hits the
candidate, and the side condition holds". -/
def admit_spec {α : Type} (admits : List Threat → α → Bool)
    (hit : α → Threat → Bool) (extra : α → Bool) : Prop :=
  ∀ (acc : List Threat) (x : α),
    admits acc x = true ↔ ((∀ t ∈ acc, hit x t = false) ∧ extra x = true)

/-- Intermediate merged collection of `process_rss_data` before the
retention sort and truncation (`data_processor.py` lines 90-112). -/
def rss_merged (rss_data : List RssArticle) (existing_threats : List Threat) : List Threat :=
  mergeInto
    (fun acc article =>
      (! acc.any (fun t => t.id == (rssThreat article).id)) &&
      article.tags.any (fun tag => relevant_security_tags.contains tag))
    rssThreat rss_data existing_threats

/-- Intermediate merged collection of `process_shodan_data` before the
retention sort and truncation (`data_processor.py` lines 164-190). -/
def shodan_merged (shodan_data : List ShodanVuln) (existing_threats : List Threat) : List Threat :=
  mergeInto
    (fun acc vuln =>
      ! acc.any (fun t => t.id == (shodanThreat vuln).id && t.source == "Shodan"))
    shodanThreat shodan_data existing_threats

/-- Descending order on the raw `date` strings, the relation the retention
sort establishes. -/
def date_ge (a b : Threat) : Prop := b.date ≤ a.date

instance : DecidableRel date_ge := fun a b => by unfold date_ge; infer_instance

/-- Dedup-key invariant: no two records of the collection agree on both
`id` and `source`. -/
def no_dup_key (threats : List Threat) : Prop :=
  threats.Pairwise fun a b => ¬(a.id = b.id ∧ a.source = b.source)

/-- String of `n` copies of the character `a`; used to build records with
pairwise-distinct ids and dates. -/
def rep_a (n : Nat) : String := String.mk (List.replicate n 'a')

/-- Generic malware-tagged RSS article number `i` of the 1200-record
retention scenario. -/
def scenario_article (i : Nat) : RssArticle where
  id := rep_a i
  title := "scenario"
  description := ""
  threat_level := none
  source := "SecurityNews"
  date := rep_a i
  link := ""
  author := ""
  tags := ["malware"]

/-- Batch of 1200 admissible RSS articles with pairwise-distinct ids and
dates. -/
def scenario_batch : List RssArticle := (List.range 1200).map scenario_article

/-- Blank threat record used to build a large pre-existing store. -/
def blank_threat : Threat where
  id := ""
  name := ""
  description := ""
  tactic := ""
  severity := ""
  source := ""
  date := ""
  link := ""
  tags := []
  author := ""
  mitigation := ""
  detection := ""

/-- Persisted store of 1001 records, used to exercise the over-cap case. -/
def big_store : List Threat := List.replicate 1001 blank_threat

/-- Existing persisted record with id `X` from source `SourceA`. -/
def cx_existing : Threat :=
  { blank_threat with id := "X", source := "SourceA", date := "2024-01-01" }

/-- RSS article carrying the same id `X` but a different source
`SourceB`, with an allow-listed tag. -/
def cx_article : RssArticle where
  id := "X"
  title := "Same id from another source"
  description := ""
  threat_level := none
  source := "SourceB"
  date := "2024-02-02"
  link := ""
  author := ""
  tags := ["malware"]

/-- Two persisted records whose dates are in ascending (hence not
descending) order. -/
def cx_old_threat : Threat :=
  { blank_threat with id := "old", source := "CISA", date := "2020-01-01" }

/-- Companion record dated after `cx_old_threat`. -/
def cx_new_threat : Threat :=
  { blank_threat with id := "new", source := "CISA", date := "2021-01-01" }

/-- Fresh CISA alert dated before both existing records. -/
def cx_alert : CisaAlert where
  id := "CISA-AA19-001"
  title := "Alert"
  description := ""
  severity := none
  date := "2019-01-01"
  link := ""
  tags := []

/-- RSS article with an allow-listed tag whose id collides with
`cx_existing`. -/
def cx_tagged_article : RssArticle where
  id := "X"
  title := "Tagged but colliding"
  description := ""
  threat_level := none
  source := "SourceC"
  date := "2024-03-03"
  link := ""
  author := ""
  tags := ["ransomware"]

/-- The MITRE technique record of the end-to-end scenario of the spec. -/
def c7_technique : MitreTechnique where
  id := "T1566.001"
  name := "Spearphishing Attachment"
  description := ""
  tactics := ["initial-access"]
  platforms := []
  data_sources := []
  detection := ""
  date := "2024-01-01"

/-- CISA alert lacking a severity field. -/
def c7_alert : CisaAlert where
  id := "AA24-001"
  title := "t"
  description := ""
  severity := none
  date := ""
  link := ""
  tags := []

/-- RSS article lacking a threat level field. -/
def c7_article : RssArticle where
  id := "r1"
  title := "t"
  description := ""
  threat_level := none
  source := "S"
  date := ""
  link := ""
  author := ""
  tags := []

/-- OTX pulse lacking a threat level field. -/
def c7_pulse : OtxPulse where
  id := "p1"
  name := "n"
  description := ""
  threat_level := none
  date := ""
  author := ""
  tags := []
  indicators_count := 0

/-- Shodan record lacking a severity field. -/
def c7_vuln : ShodanVuln where
  id := "s1"
  name := "n"
  description := ""
  severity := none
  date := ""
  ip_address := ""
  port := 0
  service := ""
  country := ""
  organization := ""
  tags := []
  vulnerabilities := []

/-- Processing body that always raises, modelling a source whose
normalize/merge steps fail with an exception. -/
def failing_body : List Threat → Except String (List Threat) :=
  fun _ => Except.error "processing failed"

/-- Existing persisted record matching the id of `c7_pulse` after the
`otx-` id rewrite, but from a different source. -/
def cx_otx_existing : Threat :=
  { blank_threat with id := "otx-p1", source := "SourceA", date := "2024-01-01" }

/-- RSS article none of whose tags is on the allow-list. -/
def cx_untagged_article : RssArticle where
  id := "U"
  title := "Untagged news"
  description := ""
  threat_level := none
  source := "SourceD"
  date := "2024-04-04"
  link := ""
  author := ""
  tags := ["weather", "sports"]

/-- Stored tool record lacking a `risk_level` key. -/
def cx_tool_nolevel : Tool := { init_tool_nmap with risk_level := none }

theorem mergeInto_nil {α : Type} (admits : List Threat → α → Bool) (norm : α → Threat)
    (s : List Threat) : mergeInto admits norm [] s = s := rfl

theorem mergeInto_cons {α : Type} (admits : List Threat → α → Bool) (norm : α → Threat)
    (x : α) (b : List α) (s : List Threat) :
    mergeInto admits norm (x :: b) s =
      if admits s x then mergeInto admits norm b (s ++ [norm x])
      else mergeInto admits norm b s := by
  simp only [mergeInto, List.foldl_cons]
  by_cases h : admits s x <;> simp [h]

theorem mergeInto_eq_append {α : Type} (admits : List Threat → α → Bool) (norm : α → Threat)
    (b : List α) (s : List Threat) :
    ∃ app, mergeInto admits norm b s = s ++ app := by
  induction b generalizing s with
  | nil => exact ⟨[], by simp [mergeInto_nil]⟩
  | cons x b ih =>
    rw [mergeInto_cons]
    by_cases h : admits s x
    · rw [if_pos h]
      obtain ⟨app, happ⟩ := ih (s ++ [norm x])
      exact ⟨[norm x] ++ app, by rw [happ, List.append_assoc]⟩
    · rw [if_neg h]
      exact ih s

theorem mem_mergeInto_of_mem {α : Type} {admits : List Threat → α → Bool} {norm : α → Threat}
    {b : List α} {s : List Threat} {t : Threat} (ht : t ∈ s) :
    t ∈ mergeInto admits norm b s := by
  obtain ⟨app, happ⟩ := mergeInto_eq_append admits norm b s
  rw [happ]
  exact List.mem_append_left _ ht

theorem length_mergeInto_ge {α : Type} (admits : List Threat → α → Bool) (norm : α → Threat)
    (b : List α) (s : List Threat) :
    s.length ≤ (mergeInto admits norm b s).length := by
  obtain ⟨app, happ⟩ := mergeInto_eq_append admits norm b s
  rw [happ, List.length_append]
  exact Nat.le_add_right _ _

theorem mem_mergeInto_cases {α : Type} {admits : List Threat → α → Bool} {norm : α → Threat}
    {hit : α → Threat → Bool} {extra : α → Bool}
    (hspec : admit_spec admits hit extra)
    {b : List α} {s : List Threat} {t : Threat}
    (ht : t ∈ mergeInto admits norm b s) :
    t ∈ s ∨ ∃ x ∈ b, extra x = true ∧ t = norm x := by
  induction b generalizing s with
  | nil => exact Or.inl (by simpa [mergeInto_nil] using ht)
  | cons x b ih =>
    rw [mergeInto_cons] at ht
    by_cases h : admits s x
    · rw [if_pos h] at ht
      rcases ih ht with hmem | ⟨y, hy, hey, hny⟩
      · rcases List.mem_append.mp hmem with h1 | h2
        · exact Or.inl h1
        · refine Or.inr ⟨x, List.mem_cons_self _ _, ((hspec s x).mp h).2, ?_⟩
          simpa using h2
      · exact Or.inr ⟨y, List.mem_cons_of_mem _ hy, hey, hny⟩
    · rw [if_neg h] at ht
      rcases ih ht with h1 | ⟨y, hy, hey, hny⟩
      · exact Or.inl h1
      · exact Or.inr ⟨y, List.mem_cons_of_mem _ hy, hey, hny⟩

theorem mergeInto_hit_mem {α : Type} {admits : List Threat → α → Bool} {norm : α → Threat}
    {hit : α → Threat → Bool} {extra : α → Bool}
    (hspec : admit_spec admits hit extra)
    (hself : ∀ x, hit x (norm x) = true)
    {b : List α} {x : α} (hx : x ∈ b) (hex : extra x = true) (s : List Threat) :
    ∃ t ∈ mergeInto admits norm b s, hit x t = true := by
  induction b generalizing s with
  | nil => cases hx
  | cons y b ih =>
    rw [mergeInto_cons]
    rcases List.mem_cons.mp hx with rfl | hxb
    · by_cases h : admits s x
      · rw [if_pos h]
        exact ⟨norm x, mem_mergeInto_of_mem (by simp), hself x⟩
      · rw [if_neg h]
        have hne : ¬ (∀ t ∈ s, hit x t = false) := by
          intro hall
          exact h ((hspec s x).mpr ⟨hall, hex⟩)
        push_neg at hne
        obtain ⟨t, hts, hhit⟩ := hne
        refine ⟨t, mem_mergeInto_of_mem hts, ?_⟩
        simpa using hhit
    · by_cases h : admits s y
      · rw [if_pos h]; exact ih hxb _
      · rw [if_neg h]; exact ih hxb _

theorem mergeInto_no_new {α : Type} {admits : List Threat → α → Bool} {norm : α → Threat}
    {hit : α → Threat → Bool} {extra : α → Bool}
    (hspec : admit_spec admits hit extra)
    {b : List α} {s : List Threat}
    (h : ∀ x ∈ b, extra x = true → ∃ t ∈ s, hit x t = true) :
    mergeInto admits norm b s = s := by
  induction b with
  | nil => rfl
  | cons x b ih =>
    rw [mergeInto_cons]
    have hadm : ¬ admits s x = true := by
      intro hc
      obtain ⟨hall, hex⟩ := (hspec s x).mp hc
      obtain ⟨t, hts, hhit⟩ := h x (List.mem_cons_self _ _) hex
      rw [hall t hts] at hhit
      cases hhit
    rw [if_neg hadm]
    exact ih fun y hy => h y (List.mem_cons_of_mem _ hy)

theorem mergeInto_twice {α : Type} {admits : List Threat → α → Bool} {norm : α → Threat}
    {hit : α → Threat → Bool} {extra : α → Bool}
    (hspec : admit_spec admits hit extra)
    (hself : ∀ x, hit x (norm x) = true)
    (b : List α) (s : List Threat) :
    mergeInto admits norm b (mergeInto admits norm b s) = mergeInto admits norm b s :=
  mergeInto_no_new hspec fun _ hx hex => mergeInto_hit_mem hspec hself hx hex s

theorem mergeInto_pairwise_key {α : Type} {admits : List Threat → α → Bool} {norm : α → Threat}
    {hit : α → Threat → Bool} {extra : α → Bool}
    (hspec : admit_spec admits hit extra)
    (hcover : ∀ (x : α) (t : Threat), t.id = (norm x).id → t.source = (norm x).source →
      hit x t = true)
    {b : List α} {s : List Threat} (hs : no_dup_key s) :
    no_dup_key (mergeInto admits norm b s) := by
  induction b generalizing s with
  | nil => exact hs
  | cons x b ih =>
    rw [mergeInto_cons]
    by_cases h : admits s x
    · rw [if_pos h]
      apply ih
      rw [no_dup_key, List.pairwise_append]
      refine ⟨hs, by simp, ?_⟩
      intro a ha t ht hk
      have ht2 : t = norm x := by simpa using ht
      subst ht2
      have hcov := hcover x a hk.1 hk.2
      have hall := ((hspec s x).mp h).1
      rw [hall a ha] at hcov
      cases hcov
    · rw [if_neg h]
      exact ih hs

theorem mergeInto_all_new {α : Type} {admits : List Threat → α → Bool} {norm : α → Threat}
    {hit : α → Threat → Bool} {extra : α → Bool}
    (hspec : admit_spec admits hit extra)
    {b : List α} {s : List Threat}
    (hextra : ∀ x ∈ b, extra x = true)
    (hfresh : ∀ x ∈ b, ∀ t ∈ s, hit x t = false)
    (hdist : b.Pairwise fun x y => hit y (norm x) = false) :
    mergeInto admits norm b s = s ++ b.map norm := by
  induction b generalizing s with
  | nil => simp [mergeInto_nil]
  | cons x b ih =>
    have hadm : admits s x = true :=
      (hspec s x).mpr ⟨hfresh x (List.mem_cons_self _ _), hextra x (List.mem_cons_self _ _)⟩
    rw [mergeInto_cons, if_pos hadm]
    rw [List.pairwise_cons] at hdist
    rw [ih (fun y hy => hextra y (List.mem_cons_of_mem _ hy))
      (fun y hy t htm => by
        rcases List.mem_append.mp htm with hts | htx
        · exact hfresh y (List.mem_cons_of_mem _ hy) t hts
        · have : t = norm x := by simpa using htx
          subst this
          exact hdist.1 y hy)
      hdist.2]
    simp

theorem process_mitre_eq (b : List MitreTechnique) (s : List Threat) :
    process_mitre_data b s =
      mergeInto (fun acc technique => ! acc.any (mitre_hit technique)) mitreThreat b s := rfl

theorem process_cisa_eq (b : List CisaAlert) (s : List Threat) :
    process_cisa_data b s =
      mergeInto (fun acc alert => ! acc.any (cisa_hit alert)) cisaThreat b s := rfl

theorem rss_merged_eq (b : List RssArticle) (s : List Threat) :
    rss_merged b s =
      mergeInto (fun acc article => (! acc.any (rss_hit article)) && rss_extra article)
        rssThreat b s := rfl

theorem process_rss_eq (b : List RssArticle) (s : List Threat) :
    process_rss_data b s = (sort_by_date_desc (rss_merged b s)).take 1000 := rfl

theorem process_otx_eq (b : List OtxPulse) (s : List Threat) :
    process_otx_data b s =
      mergeInto (fun acc pulse => ! acc.any (otx_hit pulse)) otxThreat b s := rfl

theorem shodan_merged_eq (b : List ShodanVuln) (s : List Threat) :
    shodan_merged b s =
      mergeInto (fun acc vuln => ! acc.any (shodan_hit vuln)) shodanThreat b s := rfl

theorem process_shodan_eq (b : List ShodanVuln) (s : List Threat) :
    process_shodan_data b s = (sort_by_date_desc (shodan_merged b s)).take 2000 := rfl

theorem mitre_admit_spec :
    admit_spec (fun acc technique => ! acc.any (mitre_hit technique)) mitre_hit no_filter := by
  intro acc x
  simp [no_filter, List.any_eq_false]

theorem cisa_admit_spec :
    admit_spec (fun acc alert => ! acc.any (cisa_hit alert)) cisa_hit no_filter := by
  intro acc x
  simp [no_filter, List.any_eq_false]

theorem rss_admit_spec :
    admit_spec (fun acc article => (! acc.any (rss_hit article)) && rss_extra article)
      rss_hit rss_extra := by
  intro acc x
  simp [Bool.and_eq_true, List.any_eq_false]

theorem otx_admit_spec :
    admit_spec (fun acc pulse => ! acc.any (otx_hit pulse)) otx_hit no_filter := by
  intro acc x
  simp [no_filter, List.any_eq_false]

theorem shodan_admit_spec :
    admit_spec (fun acc vuln => ! acc.any (shodan_hit vuln)) shodan_hit no_filter := by
  intro acc x
  simp [no_filter, List.any_eq_false]

theorem mitre_hit_self (technique : MitreTechnique) :
    mitre_hit technique (mitreThreat technique) = true := by
  simp [mitre_hit, mitreThreat]

theorem cisa_hit_self (alert : CisaAlert) : cisa_hit alert (cisaThreat alert) = true := by
  simp [cisa_hit, cisaThreat]

theorem rss_hit_self (article : RssArticle) : rss_hit article (rssThreat article) = true := by
  simp [rss_hit]

theorem otx_hit_self (pulse : OtxPulse) : otx_hit pulse (otxThreat pulse) = true := by
  simp [otx_hit]

theorem shodan_hit_self (vuln : ShodanVuln) :
    shodan_hit vuln (shodanThreat vuln) = true := by
  simp [shodan_hit, shodanThreat]

theorem mitre_hit_cover (x : MitreTechnique) (t : Threat)
    (h1 : t.id = (mitreThreat x).id) (h2 : t.source = (mitreThreat x).source) :
    mitre_hit x t = true := by
  simp [mitre_hit, h1, h2, mitreThreat]

theorem cisa_hit_cover (x : CisaAlert) (t : Threat)
    (h1 : t.id = (cisaThreat x).id) (h2 : t.source = (cisaThreat x).source) :
    cisa_hit x t = true := by
  simp [cisa_hit, h1, h2, cisaThreat]

theorem rss_hit_cover (x : RssArticle) (t : Threat)
    (h1 : t.id = (rssThreat x).id) :
    rss_hit x t = true := by
  simp [rss_hit, h1]

theorem otx_hit_cover (x : OtxPulse) (t : Threat)
    (h1 : t.id = (otxThreat x).id) :
    otx_hit x t = true := by
  simp [otx_hit, h1]

theorem shodan_hit_cover (x : ShodanVuln) (t : Threat)
    (h1 : t.id = (shodanThreat x).id) (h2 : t.source = (shodanThreat x).source) :
    shodan_hit x t = true := by
  simp [shodan_hit, h1, h2, shodanThreat]

theorem sort_by_date_desc_perm (l : List Threat) : List.Perm (sort_by_date_desc l) l :=
  List.mergeSort_perm l _

theorem sort_by_date_desc_length (l : List Threat) :
    (sort_by_date_desc l).length = l.length :=
  List.length_mergeSort l

theorem sort_by_date_desc_sorted (l : List Threat) :
    (sort_by_date_desc l).Pairwise date_ge := by
  have h : (sort_by_date_desc l).Pairwise
      fun a b : Threat => decide (b.date ≤ a.date) = true := by
    apply List.sorted_mergeSort
    · intro a b c hab hbc
      exact decide_eq_true (le_trans (of_decide_eq_true hbc) (of_decide_eq_true hab))
    · intro a b
      rcases le_total b.date a.date with h2 | h2 <;> simp [h2]
  exact h.imp fun hd => of_decide_eq_true hd

theorem mem_sort_by_date_desc {l : List Threat} {t : Threat} :
    t ∈ sort_by_date_desc l ↔ t ∈ l :=
  (sort_by_date_desc_perm l).mem_iff

theorem empty_le_str (s : String) : "" ≤ s := by
  rw [String.le_iff_toList_le]
  exact List.nil_le

theorem le_empty_str {s : String} (h : s ≤ "") : s = "" :=
  le_antisymm h (empty_le_str s)

theorem rep_a_inj {i j : Nat} (h : rep_a i = rep_a j) : i = j := by
  have h2 := congrArg (fun s => s.data.length) h
  simpa [rep_a] using h2

theorem mergeInto_singleton {α : Type} (admits : List Threat → α → Bool) (norm : α → Threat)
    (x : α) (s : List Threat) :
    mergeInto admits norm [x] s = if admits s x then s ++ [norm x] else s := by
  rw [mergeInto_cons]
  by_cases h : admits s x <;> simp [h, mergeInto_nil]

theorem process_mitre_singleton_fresh (technique : MitreTechnique) (s : List Threat)
    (h : ∀ t ∈ s, ¬(t.id = (mitreThreat technique).id ∧ t.source = "MITRE ATT&CK")) :
    process_mitre_data [technique] s = s ++ [mitreThreat technique] := by
  rw [process_mitre_eq, mergeInto_singleton, if_pos]
  refine (mitre_admit_spec s technique).mpr ⟨?_, rfl⟩
  intro t ht
  by_cases h1 : t.id = (mitreThreat technique).id
  · by_cases h2 : t.source = "MITRE ATT&CK"
    · exact absurd ⟨h1, h2⟩ (h t ht)
    · simp [mitre_hit, h2]
  · simp [mitre_hit, h1]

theorem process_cisa_singleton_fresh (alert : CisaAlert) (s : List Threat)
    (h : ∀ t ∈ s, ¬(t.id = (cisaThreat alert).id ∧ t.source = "CISA")) :
    process_cisa_data [alert] s = s ++ [cisaThreat alert] := by
  rw [process_cisa_eq, mergeInto_singleton, if_pos]
  refine (cisa_admit_spec s alert).mpr ⟨?_, rfl⟩
  intro t ht
  by_cases h1 : t.id = (cisaThreat alert).id
  · by_cases h2 : t.source = "CISA"
    · exact absurd ⟨h1, h2⟩ (h t ht)
    · simp [cisa_hit, h2]
  · simp [cisa_hit, h1]

theorem process_shodan_singleton_fresh (vuln : ShodanVuln) (s : List Threat)
    (h : ∀ t ∈ s, ¬(t.id = (shodanThreat vuln).id ∧ t.source = "Shodan")) :
    process_shodan_data [vuln] s =
      (sort_by_date_desc (s ++ [shodanThreat vuln])).take 2000 := by
  rw [process_shodan_eq, shodan_merged_eq, mergeInto_singleton, if_pos]
  refine (shodan_admit_spec s vuln).mpr ⟨?_, rfl⟩
  intro t ht
  by_cases h1 : t.id = (shodanThreat vuln).id
  · by_cases h2 : t.source = "Shodan"
    · exact absurd ⟨h1, h2⟩ (h t ht)
    · simp [shodan_hit, h2]
  · simp [shodan_hit, h1]

theorem process_otx_singleton_fresh (pulse : OtxPulse) (s : List Threat)
    (h : ∀ t ∈ s, t.id ≠ (otxThreat pulse).id) :
    process_otx_data [pulse] s = s ++ [otxThreat pulse] := by
  rw [process_otx_eq, mergeInto_singleton, if_pos]
  refine (otx_admit_spec s pulse).mpr ⟨?_, rfl⟩
  intro t ht
  simp [otx_hit]
  exact h t ht

theorem process_rss_singleton_fresh (article : RssArticle) (s : List Threat)
    (htags : rss_extra article = true)
    (h : ∀ t ∈ s, t.id ≠ (rssThreat article).id) :
    process_rss_data [article] s =
      (sort_by_date_desc (s ++ [rssThreat article])).take 1000 := by
  rw [process_rss_eq, rss_merged_eq, mergeInto_singleton, if_pos]
  refine (rss_admit_spec s article).mpr ⟨?_, htags⟩
  intro t ht
  simp [rss_hit]
  exact h t ht

theorem process_rss_singleton_skip (article : RssArticle) (s : List Threat)
    (h : ∃ t ∈ s, t.id = (rssThreat article).id) :
    process_rss_data [article] s = (sort_by_date_desc s).take 1000 := by
  rw [process_rss_eq, rss_merged_eq, mergeInto_singleton, if_neg]
  intro hadm
  obtain ⟨hall, _⟩ := (rss_admit_spec s article).mp hadm
  obtain ⟨t, ht, hid⟩ := h
  have hf := hall t ht
  simp [rss_hit, hid] at hf

theorem process_otx_singleton_skip (pulse : OtxPulse) (s : List Threat)
    (h : ∃ t ∈ s, t.id = (otxThreat pulse).id) :
    process_otx_data [pulse] s = s := by
  rw [process_otx_eq, mergeInto_singleton, if_neg]
  intro hadm
  obtain ⟨hall, _⟩ := (otx_admit_spec s pulse).mp hadm
  obtain ⟨t, ht, hid⟩ := h
  have hf := hall t ht
  simp [otx_hit, hid] at hf

theorem capped_twice_length {α : Type} {admits : List Threat → α → Bool} {norm : α → Threat}
    {hit : α → Threat → Bool} {extra : α → Bool}
    (hspec : admit_spec admits hit extra)
    (hself : ∀ x, hit x (norm x) = true)
    (cap : Nat) (b : List α) (s : List Threat) :
    ((sort_by_date_desc (mergeInto admits norm b
        ((sort_by_date_desc (mergeInto admits norm b s)).take cap))).take cap).length
      = ((sort_by_date_desc (mergeInto admits norm b s)).take cap).length := by
  by_cases hle : (mergeInto admits norm b s).length ≤ cap
  · have hP1eq : (sort_by_date_desc (mergeInto admits norm b s)).take cap
        = sort_by_date_desc (mergeInto admits norm b s) :=
      List.take_of_length_le (by rw [sort_by_date_desc_length]; exact hle)
    have hperm : List.Perm ((sort_by_date_desc (mergeInto admits norm b s)).take cap)
        (mergeInto admits norm b s) := by
      rw [hP1eq]; exact sort_by_date_desc_perm _
    have hM2 : mergeInto admits norm b
        ((sort_by_date_desc (mergeInto admits norm b s)).take cap)
        = (sort_by_date_desc (mergeInto admits norm b s)).take cap :=
      mergeInto_no_new hspec (fun x hx hex => by
        obtain ⟨t, ht, hhit⟩ := mergeInto_hit_mem hspec hself hx hex s
        exact ⟨t, hperm.mem_iff.mpr ht, hhit⟩)
    rw [hM2, List.length_take, sort_by_date_desc_length]
    exact Nat.min_eq_right (by rw [hperm.length_eq]; exact hle)
  · push_neg at hle
    have h1 : ((sort_by_date_desc (mergeInto admits norm b s)).take cap).length = cap := by
      rw [List.length_take, sort_by_date_desc_length]
      exact Nat.min_eq_left hle.le
    have h2 : cap ≤ (mergeInto admits norm b
        ((sort_by_date_desc (mergeInto admits norm b s)).take cap)).length :=
      le_trans (le_of_eq h1.symm) (length_mergeInto_ge _ _ _ _)
    rw [List.length_take, sort_by_date_desc_length, h1]
    exact Nat.min_eq_left h2

theorem no_dup_key_perm {l l2 : List Threat} (hp : List.Perm l l2) (h : no_dup_key l) :
    no_dup_key l2 := by
  rw [no_dup_key] at h ⊢
  exact (List.Perm.pairwise_iff
    (fun hxy hk => hxy ⟨hk.1.symm, hk.2.symm⟩) hp).mp h

theorem no_dup_key_take (n : Nat) {l : List Threat} (h : no_dup_key l) :
    no_dup_key (l.take n) :=
  List.Pairwise.sublist (List.take_sublist n l) h

theorem scenario_extra_true (i : Nat) : rss_extra (scenario_article i) = true := rfl

theorem scenario_threat_id (i : Nat) :
    (rssThreat (scenario_article i)).id = rep_a i := rfl

theorem scenario_threat_date (i : Nat) :
    (rssThreat (scenario_article i)).date = rep_a i := rfl

set_option maxRecDepth 4096 in
theorem scenario_merged :
    rss_merged scenario_batch [] = scenario_batch.map rssThreat := by
  rw [rss_merged_eq]
  apply mergeInto_all_new rss_admit_spec
  · intro x hx
    obtain ⟨i, -, rfl⟩ := List.mem_map.mp hx
    rfl
  · intro x _ t ht
    cases ht
  · show (List.map scenario_article (List.range 1200)).Pairwise
      fun x y => rss_hit y (rssThreat x) = false
    rw [List.pairwise_map]
    apply (List.pairwise_lt_range 1200).imp
    intro i j hij
    show ((rssThreat (scenario_article i)).id == (rssThreat (scenario_article j)).id) = false
    rw [scenario_threat_id, scenario_threat_id]
    exact beq_eq_false_iff_ne.mpr fun h => absurd (rep_a_inj h) (Nat.ne_of_lt hij)

theorem scenario_merged_length : (rss_merged scenario_batch []).length = 1200 := by
  rw [scenario_merged]
  simp [scenario_batch]

theorem scenario_merged_nodup : (rss_merged scenario_batch []).Nodup := by
  rw [scenario_merged]
  show (List.map rssThreat (List.map scenario_article (List.range 1200))).Nodup
  rw [List.map_map]
  refine List.Nodup.map_on ?_ (List.nodup_range 1200)
  intro i _ j _ hf
  exact rep_a_inj (by
    have := congrArg Threat.id hf
    simpa [scenario_threat_id] using this)

theorem scenario_mem {t : Threat} (ht : t ∈ rss_merged scenario_batch []) :
    ∃ i, i < 1200 ∧ t = rssThreat (scenario_article i) := by
  rw [scenario_merged] at ht
  obtain ⟨a, ha, rfl⟩ := List.mem_map.mp ht
  obtain ⟨i, hi, rfl⟩ := List.mem_map.mp ha
  exact ⟨i, by simpa using hi, rfl⟩

theorem sorted_take_drop_date (l : List Threat) (n : Nat) :
    ∀ x ∈ (sort_by_date_desc l).take n, ∀ y ∈ (sort_by_date_desc l).drop n,
      y.date ≤ x.date := by
  have hs := sort_by_date_desc_sorted l
  rw [← List.take_append_drop n (sort_by_date_desc l), List.pairwise_append] at hs
  exact fun x hx y hy => hs.2.2 x hx y hy

theorem rep_a_zero : rep_a 0 = "" := rfl

theorem scenario_smallest_absent :
    ∀ x ∈ process_rss_data scenario_batch [], x.date ≠ rep_a 0 := by
  intro x hx hdate
  rw [process_rss_eq] at hx
  have hlen : (sort_by_date_desc (rss_merged scenario_batch [])).length = 1200 := by
    rw [sort_by_date_desc_length, scenario_merged_length]
  have hdroplen :
      ((sort_by_date_desc (rss_merged scenario_batch [])).drop 1000).length = 200 := by
    rw [List.length_drop, hlen]
  obtain ⟨y, hy⟩ := List.exists_mem_of_length_pos
    (l := (sort_by_date_desc (rss_merged scenario_batch [])).drop 1000)
    (by rw [hdroplen]; norm_num)
  have hyx : y.date ≤ x.date := sorted_take_drop_date _ 1000 x hx y hy
  have hydate : y.date = "" := le_empty_str (by rw [hdate, rep_a_zero] at hyx; exact hyx)
  have hxmem : x ∈ rss_merged scenario_batch [] :=
    mem_sort_by_date_desc.mp (List.mem_of_mem_take hx)
  have hymem : y ∈ rss_merged scenario_batch [] :=
    mem_sort_by_date_desc.mp (List.mem_of_mem_drop hy)
  obtain ⟨i, _, rfl⟩ := scenario_mem hxmem
  obtain ⟨j, _, rfl⟩ := scenario_mem hymem
  have hi0 : i = 0 := rep_a_inj (by
    rw [scenario_threat_date] at hdate
    exact hdate)
  have hj0 : j = 0 := rep_a_inj (by
    rw [scenario_threat_date] at hydate
    rw [hydate, rep_a_zero])
  subst hi0
  subst hj0
  have hnd : (sort_by_date_desc (rss_merged scenario_batch [])).Nodup :=
    (sort_by_date_desc_perm _).symm.nodup scenario_merged_nodup
  have hnd2 : ((sort_by_date_desc (rss_merged scenario_batch [])).take 1000 ++
      (sort_by_date_desc (rss_merged scenario_batch [])).drop 1000).Nodup := by
    rw [List.take_append_drop]
    exact hnd
  exact (List.nodup_append.mp hnd2).2.2 hx hy

theorem sort_by_date_desc_singleton (t : Threat) : sort_by_date_desc [t] = [t] := by
  simp [sort_by_date_desc]

theorem actors_foldl_append (cat : List Actor) (s : List Actor) :
    ∃ app, cat.foldl
      (fun acc actor => if acc.any (fun a => a.id == actor.id) then acc else acc ++ [actor])
      s = s ++ app := by
  induction cat generalizing s with
  | nil => exact ⟨[], by simp⟩
  | cons x b ih =>
    rw [List.foldl_cons]
    by_cases h : s.any (fun a => a.id == x.id)
    · simp only [h, if_pos]
      exact ih s
    · simp only [h]
      rw [if_neg (by simp [h])]
      obtain ⟨app, happ⟩ := ih (s ++ [x])
      exact ⟨[x] ++ app, by rw [happ, List.append_assoc]⟩

theorem process_mitre_actors_append (s : List Actor) :
    ∃ app, process_mitre_actors s = s ++ app :=
  actors_foldl_append known_actors s

/-- C1 counterexample: with a persisted record of id `X` from `SourceA`,
RSS ingestion of an allow-listed article with the same id `X` but source
`SourceB` skips the candidate (dedup on `id` alone), so both records are
NOT retained — the persisted collection is unchanged. -/
theorem c1_counterexample :
    process_rss_data [cx_article] [cx_existing] = [cx_existing] ∧
    rssThreat cx_article ∉ ([cx_existing] : List Threat) := by
  constructor
  · rw [process_rss_singleton_skip cx_article [cx_existing] (by decide),
      sort_by_date_desc_singleton]
    rfl
  · decide

/-- C1 (amended): MITRE, CISA and Shodan ingestion skip a candidate only
on an `id` + own-source match, so a same-id record of a different source
does not block the candidate and both records are in the merged
collection (subject, for Shodan, to retention truncation); RSS and OTX
ingestion deduplicate on `id` alone, so a candidate whose id matches any
existing record — even of a different source — is skipped. -/
theorem c1_amended :
    (∀ (technique : MitreTechnique) (s : List Threat),
      (∀ t ∈ s, ¬(t.id = (mitreThreat technique).id ∧ t.source = "MITRE ATT&CK")) →
        process_mitre_data [technique] s = s ++ [mitreThreat technique]) ∧
    (∀ (alert : CisaAlert) (s : List Threat),
      (∀ t ∈ s, ¬(t.id = (cisaThreat alert).id ∧ t.source = "CISA")) →
        process_cisa_data [alert] s = s ++ [cisaThreat alert]) ∧
    (∀ (vuln : ShodanVuln) (s : List Threat),
      (∀ t ∈ s, ¬(t.id = (shodanThreat vuln).id ∧ t.source = "Shodan")) →
        process_shodan_data [vuln] s =
          (sort_by_date_desc (s ++ [shodanThreat vuln])).take 2000) ∧
    (∀ (article : RssArticle) (s : List Threat),
      (∃ t ∈ s, t.id = (rssThreat article).id) →
        process_rss_data [article] s = (sort_by_date_desc s).take 1000) ∧
    (∀ (pulse : OtxPulse) (s : List Threat),
      (∃ t ∈ s, t.id = (otxThreat pulse).id) →
        process_otx_data [pulse] s = s) :=
  ⟨process_mitre_singleton_fresh, process_cisa_singleton_fresh,
   process_shodan_singleton_fresh, process_rss_singleton_skip,
   process_otx_singleton_skip⟩

/-- C1 witness: the amended statement applied at concrete records — a
persisted `SourceA` record with id `X` (or `otx-p1`) alongside candidates
from each source. -/
theorem c1_amended_witness :
    process_mitre_data [c7_technique] [cx_existing]
      = [cx_existing] ++ [mitreThreat c7_technique] ∧
    process_cisa_data [cx_alert] [cx_existing] = [cx_existing] ++ [cisaThreat cx_alert] ∧
    process_shodan_data [c7_vuln] [cx_existing]
      = (sort_by_date_desc ([cx_existing] ++ [shodanThreat c7_vuln])).take 2000 ∧
    process_rss_data [cx_article] [cx_existing] = (sort_by_date_desc [cx_existing]).take 1000 ∧
    process_otx_data [c7_pulse] [cx_otx_existing] = [cx_otx_existing] :=
  ⟨c1_amended.1 c7_technique [cx_existing] (by decide),
   c1_amended.2.1 cx_alert [cx_existing] (by decide),
   c1_amended.2.2.1 c7_vuln [cx_existing] (by decide),
   c1_amended.2.2.2.1 cx_article [cx_existing] (by decide),
   c1_amended.2.2.2.2 c7_pulse [cx_otx_existing] (by decide)⟩

/-- C2 counterexample: CISA ingestion performs no retention sort — merging
one alert into a store whose dates are in ascending order leaves the
persisted collection NOT sorted descending by date. -/
theorem c2_counterexample :
    ¬ (process_cisa_data [cx_alert] [cx_old_threat, cx_new_threat]).Pairwise date_ge := by
  intro h
  have heq : process_cisa_data [cx_alert] [cx_old_threat, cx_new_threat]
      = [cx_old_threat, cx_new_threat, cisaThreat cx_alert] := by decide
  rw [heq] at h
  have hadj := (List.pairwise_cons.mp h).1 cx_new_threat (by simp)
  have hlt : ¬ (cx_new_threat.date ≤ cx_old_threat.date) := by
    show ¬ ("2021-01-01" ≤ "2020-01-01")
    rw [String.le_iff_toList_le]
    decide
  exact hlt hadj

/-- C2 (amended): only the RSS and Shodan processors sort the merged
collection descending by raw date string and truncate (to 1000 and 2000
records respectively); the MITRE, CISA and OTX processors append without
sorting or truncating, so their output is the prior collection plus the
admitted candidates, with no cap. -/
theorem c2_amended :
    ∀ (mb : List MitreTechnique) (cb : List CisaAlert) (rb : List RssArticle)
      (ob : List OtxPulse) (sb : List ShodanVuln) (s : List Threat),
    (∃ app, process_mitre_data mb s = s ++ app) ∧
    (∃ app, process_cisa_data cb s = s ++ app) ∧
    (∃ app, process_otx_data ob s = s ++ app) ∧
    (process_rss_data rb s).length ≤ 1000 ∧
    (process_rss_data rb s).Pairwise date_ge ∧
    (process_shodan_data sb s).length ≤ 2000 ∧
    (process_shodan_data sb s).Pairwise date_ge := by
  intro mb cb rb ob sb s
  refine ⟨?_, ?_, ?_, ?_, ?_, ?_, ?_⟩
  · rw [process_mitre_eq]; exact mergeInto_eq_append _ _ _ _
  · rw [process_cisa_eq]; exact mergeInto_eq_append _ _ _ _
  · rw [process_otx_eq]; exact mergeInto_eq_append _ _ _ _
  · rw [process_rss_eq]; exact List.length_take_le _ _
  · rw [process_rss_eq]
    exact List.Pairwise.sublist (List.take_sublist _ _) (sort_by_date_desc_sorted _)
  · rw [process_shodan_eq]; exact List.length_take_le _ _
  · rw [process_shodan_eq]
    exact List.Pairwise.sublist (List.take_sublist _ _) (sort_by_date_desc_sorted _)

/-- C3: every processor preserves the invariant that no two persisted
records agree on both `id` and `source`. -/
theorem c3_dedup_invariant :
    ∀ (mb : List MitreTechnique) (cb : List CisaAlert) (rb : List RssArticle)
      (ob : List OtxPulse) (sb : List ShodanVuln) (s : List Threat),
    no_dup_key s →
    no_dup_key (process_mitre_data mb s) ∧
    no_dup_key (process_cisa_data cb s) ∧
    no_dup_key (process_rss_data rb s) ∧
    no_dup_key (process_otx_data ob s) ∧
    no_dup_key (process_shodan_data sb s) := by
  intro mb cb rb ob sb s hs
  refine ⟨?_, ?_, ?_, ?_, ?_⟩
  · rw [process_mitre_eq]
    exact mergeInto_pairwise_key mitre_admit_spec mitre_hit_cover hs
  · rw [process_cisa_eq]
    exact mergeInto_pairwise_key cisa_admit_spec cisa_hit_cover hs
  · rw [process_rss_eq, rss_merged_eq]
    exact no_dup_key_take _ (no_dup_key_perm (sort_by_date_desc_perm _).symm
      (mergeInto_pairwise_key rss_admit_spec (fun x t h1 _ => rss_hit_cover x t h1) hs))
  · rw [process_otx_eq]
    exact mergeInto_pairwise_key otx_admit_spec (fun x t h1 _ => otx_hit_cover x t h1) hs
  · rw [process_shodan_eq, shodan_merged_eq]
    exact no_dup_key_take _ (no_dup_key_perm (sort_by_date_desc_perm _).symm
      (mergeInto_pairwise_key shodan_admit_spec shodan_hit_cover hs))

/-- C3 witness: the invariant-preservation theorem applied to the empty
store and empty batches. -/
theorem c3_dedup_invariant_witness :
    no_dup_key ([] : List Threat) ∧
    (no_dup_key (process_mitre_data [] []) ∧
     no_dup_key (process_cisa_data [] []) ∧
     no_dup_key (process_rss_data [] []) ∧
     no_dup_key (process_otx_data [] []) ∧
     no_dup_key (process_shodan_data [] [])) :=
  ⟨by simp [no_dup_key], c3_dedup_invariant [] [] [] [] [] [] (by simp [no_dup_key])⟩

/-- C4: ingesting the same batch twice through any processor yields a
persisted collection of the same size as ingesting it once. -/
theorem c4_idempotent_size :
    ∀ (mb : List MitreTechnique) (cb : List CisaAlert) (rb : List RssArticle)
      (ob : List OtxPulse) (sb : List ShodanVuln) (s : List Threat),
    (process_mitre_data mb (process_mitre_data mb s)).length
      = (process_mitre_data mb s).length ∧
    (process_cisa_data cb (process_cisa_data cb s)).length
      = (process_cisa_data cb s).length ∧
    (process_rss_data rb (process_rss_data rb s)).length
      = (process_rss_data rb s).length ∧
    (process_otx_data ob (process_otx_data ob s)).length
      = (process_otx_data ob s).length ∧
    (process_shodan_data sb (process_shodan_data sb s)).length
      = (process_shodan_data sb s).length := by
  intro mb cb rb ob sb s
  refine ⟨?_, ?_, ?_, ?_, ?_⟩
  · simp only [process_mitre_eq]
    rw [mergeInto_twice mitre_admit_spec mitre_hit_self]
  · simp only [process_cisa_eq]
    rw [mergeInto_twice cisa_admit_spec cisa_hit_self]
  · simp only [process_rss_eq, rss_merged_eq]
    exact capped_twice_length rss_admit_spec rss_hit_self 1000 rb s
  · simp only [process_otx_eq]
    rw [mergeInto_twice otx_admit_spec otx_hit_self]
  · simp only [process_shodan_eq, shodan_merged_eq]
    exact capped_twice_length shodan_admit_spec shodan_hit_self 2000 sb s

/-- C5 counterexample: an RSS article carrying the allow-listed tag
`ransomware` is nonetheless NOT persisted when an existing record (of any
source) already carries its id — having an allow-listed tag does not
guarantee persistence. -/
theorem c5_counterexample :
    "ransomware" ∈ cx_tagged_article.tags ∧
    rssThreat cx_tagged_article ∉ process_rss_data [cx_tagged_article] [cx_existing] := by
  refine ⟨by decide, ?_⟩
  rw [process_rss_singleton_skip cx_tagged_article [cx_existing] (by decide),
    sort_by_date_desc_singleton]
  decide

/-- C5 (amended): an RSS record with no allow-listed tag is never
appended (its normalized threat is in the output only if it was already
persisted); an RSS record with an allow-listed tag is appended provided no
already-merged record shares its id, after which retention applies; the
MITRE, CISA, OTX and Shodan processors apply no tag condition — a
key-fresh candidate is admitted whatever its tags. -/
theorem c5_amended :
    (∀ (b : List RssArticle) (s : List Threat) (article : RssArticle),
      (∀ tag ∈ article.tags, tag ∉ relevant_security_tags) →
      rssThreat article ∉ s →
      rssThreat article ∉ process_rss_data b s) ∧
    (∀ (article : RssArticle) (s : List Threat),
      rss_extra article = true →
      (∀ t ∈ s, t.id ≠ (rssThreat article).id) →
      process_rss_data [article] s =
        (sort_by_date_desc (s ++ [rssThreat article])).take 1000) ∧
    (∀ (technique : MitreTechnique) (s : List Threat),
      (∀ t ∈ s, ¬(t.id = (mitreThreat technique).id ∧ t.source = "MITRE ATT&CK")) →
      process_mitre_data [technique] s = s ++ [mitreThreat technique]) ∧
    (∀ (alert : CisaAlert) (s : List Threat),
      (∀ t ∈ s, ¬(t.id = (cisaThreat alert).id ∧ t.source = "CISA")) →
      process_cisa_data [alert] s = s ++ [cisaThreat alert]) ∧
    (∀ (pulse : OtxPulse) (s : List Threat),
      (∀ t ∈ s, t.id ≠ (otxThreat pulse).id) →
      process_otx_data [pulse] s = s ++ [otxThreat pulse]) ∧
    (∀ (vuln : ShodanVuln) (s : List Threat),
      (∀ t ∈ s, ¬(t.id = (shodanThreat vuln).id ∧ t.source = "Shodan")) →
      process_shodan_data [vuln] s =
        (sort_by_date_desc (s ++ [shodanThreat vuln])).take 2000) := by
  refine ⟨?_, process_rss_singleton_fresh, process_mitre_singleton_fresh,
    process_cisa_singleton_fresh, process_otx_singleton_fresh,
    process_shodan_singleton_fresh⟩
  intro b s article hno hnotin hmem
  rw [process_rss_eq] at hmem
  have hmem2 : rssThreat article ∈ rss_merged b s :=
    mem_sort_by_date_desc.mp (List.mem_of_mem_take hmem)
  rw [rss_merged_eq] at hmem2
  rcases mem_mergeInto_cases rss_admit_spec hmem2 with hs | ⟨x, _, hex, heq⟩
  · exact hnotin hs
  · have htags : x.tags = article.tags := by
      have hc := congrArg Threat.tags heq
      simp only [rssThreat] at hc
      exact (List.append_cancel_right hc).symm
    rw [rss_extra, htags, List.any_eq_true] at hex
    obtain ⟨tag, htag, hcont⟩ := hex
    exact hno tag htag (by simpa using hcont)

/-- C5 witness: the amended statement applied at concrete records — an
article with only non-listed tags into an empty store, a tagged id-fresh
article, and key-fresh candidates for the four other sources. -/
theorem c5_amended_witness :
    rssThreat cx_untagged_article ∉ process_rss_data [cx_untagged_article] [] ∧
    process_rss_data [cx_article] []
      = (sort_by_date_desc ([] ++ [rssThreat cx_article])).take 1000 ∧
    process_mitre_data [c7_technique] [] = [] ++ [mitreThreat c7_technique] ∧
    process_cisa_data [c7_alert] [] = [] ++ [cisaThreat c7_alert] ∧
    process_otx_data [c7_pulse] [] = [] ++ [otxThreat c7_pulse] ∧
    process_shodan_data [c7_vuln] [] =
      (sort_by_date_desc ([] ++ [shodanThreat c7_vuln])).take 2000 :=
  ⟨c5_amended.1 [cx_untagged_article] [] cx_untagged_article (by decide) (by decide),
   c5_amended.2.1 cx_article [] (by decide) (by decide),
   c5_amended.2.2.1 c7_technique [] (by decide),
   c5_amended.2.2.2.1 c7_alert [] (by decide),
   c5_amended.2.2.2.2.1 c7_pulse [] (by decide),
   c5_amended.2.2.2.2.2 c7_vuln [] (by decide)⟩

/-- C6: when the merged RSS collection exceeds 1000 records, the persisted
collection has length exactly 1000, is the initial segment of the
descending date-sorted merge, and every kept record's date is at least
every dropped record's date; moreover the concrete 1200-article
malware-tagged scenario with pairwise-distinct ids and dates persists
exactly 1000 records and the record with the lexicographically smallest
date string (`rep_a 0`) is absent. -/
theorem c6_retention :
    (∀ (b : List RssArticle) (s : List Threat),
      1000 < (rss_merged b s).length →
      (process_rss_data b s).length = 1000 ∧
      process_rss_data b s ++ (sort_by_date_desc (rss_merged b s)).drop 1000
        = sort_by_date_desc (rss_merged b s) ∧
      (∀ x ∈ process_rss_data b s,
        ∀ y ∈ (sort_by_date_desc (rss_merged b s)).drop 1000, y.date ≤ x.date)) ∧
    (process_rss_data scenario_batch []).length = 1000 ∧
    (∀ x ∈ process_rss_data scenario_batch [], x.date ≠ rep_a 0) ∧
    (∀ i, i < 1200 → rep_a 0 ≤ rep_a i) := by
  refine ⟨?_, ?_, scenario_smallest_absent, ?_⟩
  · intro b s h
    refine ⟨?_, ?_, ?_⟩
    · rw [process_rss_eq, List.length_take, sort_by_date_desc_length]
      exact Nat.min_eq_left h.le
    · rw [process_rss_eq]
      exact List.take_append_drop _ _
    · rw [process_rss_eq]
      exact sorted_take_drop_date _ 1000
  · rw [process_rss_eq, List.length_take, sort_by_date_desc_length, scenario_merged_length]
    decide
  · intro i _
    rw [rep_a_zero]
    exact empty_le_str _

/-- C6 witness: the over-cap hypothesis discharged at the concrete
1001-record store (with an empty batch, the merged collection is the store
itself). -/
theorem c6_retention_witness :
    1000 < (rss_merged [] big_store).length ∧
    (process_rss_data [] big_store).length = 1000 := by
  have h : 1000 < (rss_merged [] big_store).length := by
    show 1000 < big_store.length
    rw [big_store, List.length_replicate]
    norm_num
  exact ⟨h, (c6_retention.1 [] big_store h).1⟩

/-- C7: normalization fixes tactic, source and severity per source —
MITRE records get the comma-joined tactics, severity `Medium` and source
`MITRE ATT&CK`; CISA gets tactic `Alert`; RSS gets tactic `News/Intel`
with severity defaulting to `Low`; OTX gets `Intelligence` and Shodan
`Discovery`, both defaulting severity to `Medium`; and the concrete
`T1566.001` scenario persists with tactic `initial-access`, source
`MITRE ATT&CK`, severity `Medium`, with re-ingestion a no-op. -/
theorem c7_normalization :
    (∀ technique : MitreTechnique,
      (mitreThreat technique).tactic = String.intercalate ", " technique.tactics ∧
      (mitreThreat technique).severity = "Medium" ∧
      (mitreThreat technique).source = "MITRE ATT&CK") ∧
    (∀ alert : CisaAlert, (cisaThreat alert).tactic = "Alert" ∧
      (alert.severity = none → (cisaThreat alert).severity = "Medium")) ∧
    (∀ article : RssArticle, (rssThreat article).tactic = "News/Intel" ∧
      (article.threat_level = none → (rssThreat article).severity = "Low")) ∧
    (∀ pulse : OtxPulse, (otxThreat pulse).tactic = "Intelligence" ∧
      (pulse.threat_level = none → (otxThreat pulse).severity = "Medium")) ∧
    (∀ vuln : ShodanVuln, (shodanThreat vuln).tactic = "Discovery" ∧
      (vuln.severity = none → (shodanThreat vuln).severity = "Medium")) ∧
    process_mitre_data [c7_technique] [] = [mitreThreat c7_technique] ∧
    (mitreThreat c7_technique).tactic = "initial-access" ∧
    (mitreThreat c7_technique).source = "MITRE ATT&CK" ∧
    (mitreThreat c7_technique).severity = "Medium" ∧
    process_mitre_data [c7_technique] (process_mitre_data [c7_technique] [])
      = process_mitre_data [c7_technique] [] := by
  refine ⟨fun technique => ⟨rfl, rfl, rfl⟩,
    fun alert => ⟨rfl, fun h => by simp [cisaThreat, h]⟩,
    fun article => ⟨rfl, fun h => by simp [rssThreat, h]⟩,
    fun pulse => ⟨rfl, fun h => by simp [otxThreat, h]⟩,
    fun vuln => ⟨rfl, fun h => by simp [shodanThreat, h]⟩,
    ?_, by decide, rfl, rfl, ?_⟩
  · rw [process_mitre_singleton_fresh c7_technique [] (by simp)]
    rfl
  · simp only [process_mitre_eq]
    rw [mergeInto_twice mitre_admit_spec mitre_hit_self]

/-- C7 witness: the defaulting implications discharged at concrete records
lacking the severity / threat-level key. -/
theorem c7_normalization_witness :
    c7_alert.severity = none ∧ (cisaThreat c7_alert).severity = "Medium" ∧
    c7_article.threat_level = none ∧ (rssThreat c7_article).severity = "Low" ∧
    c7_pulse.threat_level = none ∧ (otxThreat c7_pulse).severity = "Medium" ∧
    c7_vuln.severity = none ∧ (shodanThreat c7_vuln).severity = "Medium" :=
  ⟨rfl, (c7_normalization.2.1 c7_alert).2 rfl,
   rfl, (c7_normalization.2.2.1 c7_article).2 rfl,
   rfl, (c7_normalization.2.2.2.1 c7_pulse).2 rfl,
   rfl, (c7_normalization.2.2.2.2.1 c7_vuln).2 rfl⟩

/-- C8 counterexample: the `mimikatz` seed record of `initialize_data.py`
stores `risk_level: Critical` with a single `used_by` entry; the `/tools`
route reports the stored `Critical`, not the length-derived `Low`. -/
theorem c8_counterexample :
    init_tool_mimikatz.used_by.length ≤ 2 ∧
    tools_route_risk init_tool_mimikatz = "Critical" ∧
    tools_route_risk init_tool_mimikatz ≠ "Low" := by
  refine ⟨by decide, rfl, by decide⟩

/-- C8 (amended): the `/tools` route derives `risk_level` from the
`len(used_by)` thresholds (greater than 5 gives High, greater than 2 gives
Medium, otherwise Low) only when the stored record lacks a `risk_level`
field; a stored `risk_level` is reported unchanged. -/
theorem c8_amended :
    ∀ tool : Tool,
    (tool.risk_level = none →
      tools_route_risk tool =
        (if tool.used_by.length > 5 then "High"
         else if tool.used_by.length > 2 then "Medium" else "Low")) ∧
    (∀ r, tool.risk_level = some r → tools_route_risk tool = r) := by
  intro tool
  constructor
  · intro h
    simp [tools_route_risk, h]
  · intro r h
    simp [tools_route_risk, h]

/-- C8 witness: the amended statement applied at a stored record lacking
`risk_level` (derived `Low`) and at the mimikatz seed record (stored
`Critical` reported unchanged). -/
theorem c8_amended_witness :
    cx_tool_nolevel.risk_level = none ∧
    tools_route_risk cx_tool_nolevel = "Low" ∧
    init_tool_mimikatz.risk_level = some "Critical" ∧
    tools_route_risk init_tool_mimikatz = "Critical" :=
  ⟨rfl, by simpa using (c8_amended cx_tool_nolevel).1 rfl,
   rfl, (c8_amended init_tool_mimikatz).2 "Critical" rfl⟩

/-- C9: each source's processing body runs behind its own catch-all
`try/except`; when a body raises (modelled as an `Except.error` outcome),
nothing is saved — the persisted collection entering the failed step is
unchanged — the step returns normally, and the remaining sources of the
update cycle are still processed on that unchanged collection. -/
theorem c9_failure_isolation :
    ∀ (fs gs : List (List Threat → Except String (List Threat)))
      (f : List Threat → Except String (List Threat)) (err : String) (s : List Threat),
    f (run_update fs s) = Except.error err →
    try_step f (run_update fs s) = run_update fs s ∧
    run_update (fs ++ f :: gs) s = run_update gs (run_update fs s) := by
  intro fs gs f err s h
  have h1 : try_step f (run_update fs s) = run_update fs s := by
    simp [try_step, h]
  refine ⟨h1, ?_⟩
  show (fs ++ f :: gs).foldl (fun s f => try_step f s) s = _
  rw [List.foldl_append, List.foldl_cons]
  show run_update gs (try_step f (run_update fs s)) = run_update gs (run_update fs s)
  rw [h1]

/-- C9 witness: the isolation theorem applied to a concrete always-raising
body with no surrounding sources and the empty store. -/
theorem c9_failure_isolation_witness :
    failing_body (run_update [] []) = Except.error "processing failed" ∧
    (try_step failing_body (run_update [] []) = run_update [] [] ∧
     run_update ([] ++ failing_body :: []) [] = run_update [] (run_update [] [])) :=
  ⟨rfl, c9_failure_isolation [] [] failing_body "processing failed" [] rfl⟩

/-- C10 counterexample: `update_tools_data` is not append-only — it
rewrites the tools file with its fixed three-record catalog, so a
previously persisted `nmap` tool record is gone afterwards even though no
retention truncation exists for tools. -/
theorem c10_counterexample :
    init_tool_nmap ∈ ([init_tool_nmap] : List Tool) ∧
    init_tool_nmap ∉ update_tools_data [init_tool_nmap] := by
  refine ⟨by decide, by decide⟩

/-- C10 (amended): the threat processors and the actors merge are
append-only up to the RSS/Shodan retention sort-and-truncate (their output
is the prior collection plus appended candidates, truncated only by the
retention step), but `update_tools_data` replaces the tools collection
wholesale with its fixed catalog regardless of prior contents. -/
theorem c10_frame :
    ∀ (mb : List MitreTechnique) (cb : List CisaAlert) (rb : List RssArticle)
      (ob : List OtxPulse) (sb : List ShodanVuln) (s : List Threat)
      (sa : List Actor) (tp : List Tool),
    (∃ app, process_mitre_data mb s = s ++ app) ∧
    (∃ app, process_cisa_data cb s = s ++ app) ∧
    (∃ app, process_otx_data ob s = s ++ app) ∧
    (∃ app, process_rss_data rb s = (sort_by_date_desc (s ++ app)).take 1000) ∧
    (∃ app, process_shodan_data sb s = (sort_by_date_desc (s ++ app)).take 2000) ∧
    (∃ app, process_mitre_actors sa = sa ++ app) ∧
    update_tools_data tp = update_tools_catalog := by
  intro mb cb rb ob sb s sa tp
  refine ⟨?_, ?_, ?_, ?_, ?_, process_mitre_actors_append sa, rfl⟩
  · rw [process_mitre_eq]; exact mergeInto_eq_append _ _ _ _
  · rw [process_cisa_eq]; exact mergeInto_eq_append _ _ _ _
  · rw [process_otx_eq]; exact mergeInto_eq_append _ _ _ _
  · obtain ⟨app, happ⟩ := mergeInto_eq_append
      (fun acc article => (! acc.any (rss_hit article)) && rss_extra article)
      rssThreat rb s
    exact ⟨app, by rw [process_rss_eq, rss_merged_eq, happ]⟩
  · obtain ⟨app, happ⟩ := mergeInto_eq_append
      (fun acc vuln => ! acc.any (shodan_hit vuln)) shodanThreat sb s
    exact ⟨app, by rw [process_shodan_eq, shodan_merged_eq, happ]⟩
